import Mathlib

/-!
Verification of the fat-tree topology generator in
src/mininet/topo-fattree.py (class FatTreeTopo, class IPv6Host).

The Python source hardcodes a k=4 fat tree: a single loop creates the
switches (lines 66-75), sixteen addHost calls create the hosts
(lines 78-115), and forty-eight addLink calls create the links
(lines 118-197). The definitions below transcribe that construction;
theorems then settle counting, wiring, addressing and configuration
claims about it.
-/

namespace FatTree

/-- CPU_PORT constant at line 28 of the source. -/
def CPU_PORT : Nat := 255

/-- The three switch tiers of the topology. -/
inductive Tier where
  | core
  | agg
  | edge
deriving DecidableEq, Repr

/-- A switch as created by addSwitch: its name and the cpuport keyword
argument it was created with. -/
structure SwitchDef where
  tier : Tier
  name : String
  cpuport : Nat
deriving DecidableEq, Repr

/-- A host as created by addHost with cls=IPv6Host: name, mac, ipv6
(address with prefix length) and ipv6_gw keyword arguments. -/
structure HostDef where
  name : String
  mac : String
  ipv6 : String
  ipv6Gw : String
deriving DecidableEq, Repr

instance : BEq SwitchDef := ⟨fun a b => decide (a = b)⟩
instance : BEq HostDef := ⟨fun a b => decide (a = b)⟩

/-- Name of cores[i]: the Python loop names it with s{i}_core{i}. -/
def coreSw (i : Nat) : String := "s" ++ toString i ++ "_core" ++ toString i

/-- Name of aggs[j]: created at loop index i = j + 4 as s{i}_agg{i-4}. -/
def aggSw (j : Nat) : String := "s" ++ toString (j + 4) ++ "_agg" ++ toString j

/-- Name of edges[j]: created at loop index i = j + 12 as s{i}_edge{i-12}. -/
def edgeSw (j : Nat) : String := "s" ++ toString (j + 12) ++ "_edge" ++ toString j

/-- The switch-creation loop of FatTreeTopo.__init__ (lines 66-75):
for i in range(1, 21), i <= 4 creates a core switch, 4 < i <= 12 an
aggregation switch, i > 12 an edge switch, each with cpuport=CPU_PORT. -/
def mkSwitches : List SwitchDef :=
  (List.range' 1 20).flatMap fun i =>
    (if i ≤ 4 then [{ tier := Tier.core, name := coreSw i, cpuport := CPU_PORT }] else [])
    ++ (if 4 < i ∧ i ≤ 12 then [{ tier := Tier.agg, name := aggSw (i - 4), cpuport := CPU_PORT }] else [])
    ++ (if 12 < i then [{ tier := Tier.edge, name := edgeSw (i - 12), cpuport := CPU_PORT }] else [])

/-- The sixteen addHost calls of FatTreeTopo.__init__ (lines 78-115),
transcribed literally. -/
def hosts : List HostDef :=
  [ { name := "h1a", mac := "00:00:00:00:00:1A", ipv6 := "2001:1:1::a/64", ipv6Gw := "2001:1:A::ff" },
    { name := "h1b", mac := "00:00:00:00:00:1B", ipv6 := "2001:1:1::b/64", ipv6Gw := "2001:1:B::ff" },
    { name := "h1c", mac := "00:00:00:00:00:1C", ipv6 := "2001:1:1::c/64", ipv6Gw := "2001:1:C::ff" },
    { name := "h1d", mac := "00:00:00:00:00:1D", ipv6 := "2001:1:1::d/64", ipv6Gw := "2001:1:D::ff" },
    { name := "h2a", mac := "00:00:00:00:00:2A", ipv6 := "2002:1:1::a/64", ipv6Gw := "2002:1:A::ff" },
    { name := "h2b", mac := "00:00:00:00:00:2B", ipv6 := "2002:1:1::b/64", ipv6Gw := "2002:1:B::ff" },
    { name := "h2c", mac := "00:00:00:00:00:2C", ipv6 := "2002:1:1::c/64", ipv6Gw := "2002:1:C::ff" },
    { name := "h2d", mac := "00:00:00:00:00:2D", ipv6 := "2002:1:1::d/64", ipv6Gw := "2002:1:D::ff" },
    { name := "h3a", mac := "00:00:00:00:00:3A", ipv6 := "2003:1:1::a/64", ipv6Gw := "2003:1:A::ff" },
    { name := "h3b", mac := "00:00:00:00:00:3B", ipv6 := "2003:1:1::b/64", ipv6Gw := "2003:1:B::ff" },
    { name := "h3c", mac := "00:00:00:00:00:3C", ipv6 := "2003:1:1::c/64", ipv6Gw := "2003:1:C::ff" },
    { name := "h3d", mac := "00:00:00:00:00:3D", ipv6 := "2003:1:1::d/64", ipv6Gw := "2003:1:D::ff" },
    { name := "h4a", mac := "00:00:00:00:00:4A", ipv6 := "2004:1:1::a/64", ipv6Gw := "2004:1:A::ff" },
    { name := "h4b", mac := "00:00:00:00:00:4B", ipv6 := "2004:1:1::b/64", ipv6Gw := "2004:1:B::ff" },
    { name := "h4c", mac := "00:00:00:00:00:4C", ipv6 := "2004:1:1::c/64", ipv6Gw := "2004:1:C::ff" },
    { name := "h4d", mac := "00:00:00:00:00:4D", ipv6 := "2004:1:1::d/64", ipv6Gw := "2004:1:D::ff" } ]

/-- The forty-eight addLink calls of FatTreeTopo.__init__ (lines 118-197),
transcribed literally in source order, as (first endpoint, second endpoint)
name pairs. -/
def links : List (String × String) :=
  [ (coreSw 1, aggSw 1), (coreSw 1, aggSw 3), (coreSw 1, aggSw 5), (coreSw 1, aggSw 7),
    (coreSw 2, aggSw 1), (coreSw 2, aggSw 3), (coreSw 2, aggSw 5), (coreSw 2, aggSw 7),
    (coreSw 3, aggSw 2), (coreSw 3, aggSw 4), (coreSw 3, aggSw 6), (coreSw 3, aggSw 8),
    (coreSw 4, aggSw 2), (coreSw 4, aggSw 4), (coreSw 4, aggSw 6), (coreSw 4, aggSw 8),
    (aggSw 1, edgeSw 1), (aggSw 1, edgeSw 2),
    (aggSw 2, edgeSw 1), (aggSw 2, edgeSw 2),
    (aggSw 3, edgeSw 3), (aggSw 3, edgeSw 4),
    (aggSw 4, edgeSw 3), (aggSw 4, edgeSw 4),
    (aggSw 5, edgeSw 5), (aggSw 5, edgeSw 6),
    (aggSw 6, edgeSw 5), (aggSw 6, edgeSw 6),
    (aggSw 7, edgeSw 7), (aggSw 7, edgeSw 8),
    (aggSw 8, edgeSw 7), (aggSw 8, edgeSw 8),
    (edgeSw 1, "h1a"), (edgeSw 1, "h1b"),
    (edgeSw 2, "h1c"), (edgeSw 2, "h1d"),
    (edgeSw 3, "h2a"), (edgeSw 3, "h2b"),
    (edgeSw 4, "h2c"), (edgeSw 4, "h2d"),
    (edgeSw 5, "h3a"), (edgeSw 5, "h3b"),
    (edgeSw 6, "h3c"), (edgeSw 6, "h3d"),
    (edgeSw 7, "h4a"), (edgeSw 7, "h4b"),
    (edgeSw 8, "h4c"), (edgeSw 8, "h4d") ]

/-- Names of the core switches, as keyed by the cores dict. -/
def coreNames : List String := (List.range' 1 4).map coreSw

/-- Names of the aggregation switches, as keyed by the aggs dict. -/
def aggNames : List String := (List.range' 1 8).map aggSw

/-- Names of the edge switches, as keyed by the edges dict. -/
def edgeNames : List String := (List.range' 1 8).map edgeSw

/-- Names of the hosts. -/
def hostNames : List String := hosts.map (fun h => h.name)

/-- Number of links with one endpoint named in A and the other named in B
(A and B are disjoint name lists, so each link is counted once). -/
def linksBetween (A B : List String) : Nat :=
  (links.filter fun l => (A.contains l.1 && B.contains l.2)
                      || (B.contains l.1 && A.contains l.2)).length

/-- Number of links joining the node named n to a node named in B. -/
def degTo (n : String) (B : List String) : Nat :=
  (links.filter fun l => (l.1 == n && B.contains l.2)
                      || (l.2 == n && B.contains l.1)).length

/-- All link partners of the node named n, in source link order. -/
def partnersOf (n : String) : List String :=
  ((links.filter fun l => l.1 == n).map Prod.snd)
  ++ ((links.filter fun l => l.2 == n).map Prod.fst)

/-- Split a character list on a separator, like Python str.split: the
result always has one more segment than there are separators. -/
def splitOnChar (sep : Char) : List Char → List (List Char)
  | [] => [[]]
  | c :: rest =>
    let r := splitOnChar sep rest
    if c = sep then [] :: r
    else
      match r with
      | [] => [[c]]
      | g :: gs => (c :: g) :: gs

/-- Value of one hexadecimal digit (either case). -/
def hexDigitVal (c : Char) : Nat :=
  if c.isDigit then c.toNat - 48
  else if 97 ≤ c.toNat ∧ c.toNat ≤ 102 then c.toNat - 87
  else if 65 ≤ c.toNat ∧ c.toNat ≤ 70 then c.toNat - 55
  else 0

/-- Value of one hexadecimal group of an IPv6 address. -/
def hexGroup (l : List Char) : Nat :=
  l.foldl (fun a c => a * 16 + hexDigitVal c) 0

/-- Expand the colon-separated groups of an IPv6 address to its eight
16-bit group values: a double colon appears as one empty segment and
stands for enough zero groups to reach eight. -/
def expandGroups (gs : List (List Char)) : List Nat :=
  let n := (gs.filter fun g => g ≠ []).length
  gs.flatMap fun g => if g = [] then List.replicate (8 - n) 0 else [hexGroup g]

/-- The characters of s before the first slash (drops a /64 suffix). -/
def beforeSlash (s : String) : List Char :=
  s.data.takeWhile fun c => c ≠ '/'

/-- The first four 16-bit groups, i.e. the first 64 bits, of an IPv6
address string (any /len suffix removed first). -/
def first64 (s : String) : List Nat :=
  (expandGroups (splitOnChar ':' (beforeSlash s))).take 4

/-- The first two 16-bit groups, i.e. the first 32 bits, of an IPv6
address string (any /len suffix removed first). -/
def first32 (s : String) : List Nat :=
  (expandGroups (splitOnChar ':' (beforeSlash s))).take 2

/-- The updateIP closure installed by IPv6Host.config (lines 47-50 of the
source): it returns ipv6.split('/')[0]. -/
def updateIP (ipv6 : String) : String :=
  ((splitOnChar '/' ipv6.data).headD []).asString

/-- The lowercase host letters, in pod position order. -/
def lowerLetter (i : Nat) : String := ["a", "b", "c", "d"].getD (i - 1) ""

/-- The uppercase host letters, in pod position order. -/
def upperLetter (i : Nat) : String := ["A", "B", "C", "D"].getD (i - 1) ""

/-- The (pod, letter) → attributes pattern common to the sixteen addHost
calls: host h{p}{l} has mac 00:00:00:00:00:{p}{L}, ipv6 200{p}:1:1::{l}/64
and gateway 200{p}:1:{L}::ff, where L is the uppercase of l. -/
def alloc (p i : Nat) : HostDef :=
  { name := "h" ++ toString p ++ lowerLetter i,
    mac := "00:00:00:00:00:" ++ toString p ++ upperLetter i,
    ipv6 := "200" ++ toString p ++ ":1:1::" ++ lowerLetter i ++ "/64",
    ipv6Gw := "200" ++ toString p ++ ":1:" ++ upperLetter i ++ "::ff" }

/-- Pod index encoded in a host's name (digit after the leading h). -/
def podOf (h : HostDef) : Nat := (h.name.data.getD 1 ' ').toNat - 48

/-- Position letter encoded in a host's name (third character). -/
def letterOf (h : HostDef) : Char := h.name.data.getD 2 ' '

/-- One externally visible step of IPv6Host.config (lines 35-45 of the
source), in the order the shell commands are issued. -/
inductive ConfigStep where
  | flushV4
  | flushV6
  | addAddr (a : String)
  | addRoute (gw : String)
  | offloadOff (attr : String)
deriving DecidableEq, Repr

/-- IPv6Host.config (lines 35-45): flush IPv4 addresses, flush IPv6
addresses, add the ipv6 address, add the default route when the ipv6_gw
argument is truthy (neither absent nor empty), then disable the rx, tx
and sg offload features. -/
def IPv6HostConfig (ipv6 : String) (ipv6Gw : Option String) : List ConfigStep :=
  [ConfigStep.flushV4, ConfigStep.flushV6, ConfigStep.addAddr ipv6]
  ++ (match ipv6Gw with
      | some gw => if gw ≠ "" then [ConfigStep.addRoute gw] else []
      | none => [])
  ++ [ConfigStep.offloadOff "rx", ConfigStep.offloadOff "tx", ConfigStep.offloadOff "sg"]

/-- Generation error kinds of the spec's generation API. -/
inductive GenError where
  | InvalidSize
deriving DecidableEq, Repr

/-- A generated topology as the spec's generation API describes it:
switch names, host names and links. -/
structure SpecTopo where
  switches : List String
  hostList : List String
  linkList : List (String × String)
deriving DecidableEq, Repr

/-- Modelled from the spec: the source hardcodes the k=4 instance and
takes no size parameter, so the generalized GenerateFatTree of §4.2/§6 —
in particular its InvalidSize validation — is absent from src/. Following
the spec's algorithm: k/2 pods each holding k/2 aggregation and k/2 edge
switches, k core switches in k/2 groups of two with group g wired to
in-pod position g of every pod, full aggregation-edge mesh per pod, and
k/2 hosts per edge switch. -/
def specBuild (k : Nat) : SpecTopo :=
  let half := k / 2
  let pods := List.range' 1 half
  let positions := List.range' 1 half
  let aggAt := fun p g => "agg" ++ toString ((p - 1) * half + g)
  let edgeAt := fun p g => "edge" ++ toString ((p - 1) * half + g)
  let coreAt := fun c => "core" ++ toString c
  let hostAt := fun p g j => "host" ++ toString p ++ "_" ++ toString g ++ "_" ++ toString j
  { switches :=
      ((List.range' 1 k).map coreAt)
      ++ (pods.flatMap fun p => positions.map (aggAt p))
      ++ (pods.flatMap fun p => positions.map (edgeAt p)),
    hostList :=
      pods.flatMap fun p => positions.flatMap fun g =>
        (List.range' 1 half).map (hostAt p g),
    linkList :=
      (positions.flatMap fun g => pods.flatMap fun p =>
        [(coreAt (2 * g - 1), aggAt p g), (coreAt (2 * g), aggAt p g)])
      ++ (pods.flatMap fun p => positions.flatMap fun g =>
          positions.map fun e => (aggAt p g, edgeAt p e))
      ++ (pods.flatMap fun p => positions.flatMap fun g =>
          (List.range' 1 half).map fun j => (edgeAt p g, hostAt p g j)) }

/-- Modelled from the spec: GenerateFatTree(k) → Topology | InvalidSize
(§6), failing with InvalidSize when k is odd, negative or zero (§4.2)
and otherwise building the spec's generalized topology. -/
def GenerateFatTree (k : Int) : Except GenError SpecTopo :=
  if k ≤ 0 ∨ k % 2 ≠ 0 then Except.error GenError.InvalidSize
  else Except.ok (specBuild k.toNat)

end FatTree

namespace FatTree

/-- C1 (counterexample): the claimed k=4 counts — 4 aggregation switches,
4 edge switches, 8 hosts and 8 edge-host links — do not hold of the
generated topology: it has 8 aggregation switches, 8 edge switches,
16 hosts and 16 edge-host links. -/
theorem C1_tier_counts_cex :
    ¬ ((mkSwitches.filter fun s => s.tier == Tier.core).length = 4
       ∧ (mkSwitches.filter fun s => s.tier == Tier.agg).length = 4
       ∧ (mkSwitches.filter fun s => s.tier == Tier.edge).length = 4
       ∧ hosts.length = 8
       ∧ linksBetween aggNames coreNames = 16
       ∧ linksBetween aggNames edgeNames = 16
       ∧ linksBetween edgeNames hostNames = 8) := by decide

/-- C1 (amended): the generated topology has exactly 4 core switches,
8 aggregation switches, 8 edge switches and 16 hosts, with exactly
16 aggregation-core links, 16 aggregation-edge links and 16 edge-host
links — and those 48 links are all the links there are. -/
theorem C1_tier_counts :
    (mkSwitches.filter fun s => s.tier == Tier.core).length = 4
    ∧ (mkSwitches.filter fun s => s.tier == Tier.agg).length = 8
    ∧ (mkSwitches.filter fun s => s.tier == Tier.edge).length = 8
    ∧ hosts.length = 16
    ∧ linksBetween aggNames coreNames = 16
    ∧ linksBetween aggNames edgeNames = 16
    ∧ linksBetween edgeNames hostNames = 16
    ∧ (mkSwitches.filter fun s => s.tier == Tier.core).map (fun s => s.name) = coreNames
    ∧ (mkSwitches.filter fun s => s.tier == Tier.agg).map (fun s => s.name) = aggNames
    ∧ (mkSwitches.filter fun s => s.tier == Tier.edge).map (fun s => s.name) = edgeNames
    ∧ links.length = 48 := by decide

/-- C2: every edge switch is linked to exactly 2 hosts and 2 aggregation
switches, every aggregation switch to exactly 2 edge switches and 2 core
switches, and every core switch to exactly 4 aggregation switches. -/
theorem C2_switch_degrees :
    ((edgeNames.all fun e => degTo e hostNames == 2 && degTo e aggNames == 2)
     && (aggNames.all fun a => degTo a edgeNames == 2 && degTo a coreNames == 2)
     && (coreNames.all fun c => degTo c aggNames == 4)) = true := by decide

/-- C3: cores 2g-1 and 2g (g = 1, 2) are each linked exactly to the
aggregation switch at in-pod position g of every pod; concretely, cores 1
and 2 link to aggs 1, 3, 5, 7 and cores 3 and 4 link to aggs 2, 4, 6, 8. -/
theorem C3_core_agg_wiring :
    ((List.range' 1 2).all fun g => [2 * g - 1, 2 * g].all fun c =>
      partnersOf (coreSw c) == (List.range' 1 4).map fun p => aggSw ((p - 1) * 2 + g)) = true
    ∧ partnersOf (coreSw 1) = [aggSw 1, aggSw 3, aggSw 5, aggSw 7]
    ∧ partnersOf (coreSw 2) = [aggSw 1, aggSw 3, aggSw 5, aggSw 7]
    ∧ partnersOf (coreSw 3) = [aggSw 2, aggSw 4, aggSw 6, aggSw 8]
    ∧ partnersOf (coreSw 4) = [aggSw 2, aggSw 4, aggSw 6, aggSw 8] := by decide

/-- C4: over the sixteen generated hosts, MAC addresses are pairwise
distinct and IPv6 addresses are pairwise distinct; every host's whole
attribute tuple is the fixed function alloc of the (pod, letter) pair
encoded in its name, and any two generated hosts agreeing on (pod,
letter) are equal. -/
theorem C4_alloc_injective :
    (hosts.map fun h => h.mac).Nodup
    ∧ (hosts.map fun h => h.ipv6).Nodup
    ∧ (hosts.all fun h => h == alloc (podOf h) ((letterOf h).toNat - 96)) = true
    ∧ (hosts.all fun h1 => hosts.all fun h2 =>
        !(podOf h1 == podOf h2 && letterOf h1 == letterOf h2) || h1 == h2) = true := by decide

/-- C5 (counterexample): host h1a has address 2001:1:1::a/64 whose first
64 bits are 2001:0001:0001:0000, but its gateway 2001:1:A::ff has first
64 bits 2001:0001:000a:0000 — the gateway is not in the host's /64. -/
theorem C5_gw_not_in_host_64 :
    (hosts.headD (alloc 9 9)).name = "h1a"
    ∧ (hosts.headD (alloc 9 9)).ipv6 = "2001:1:1::a/64"
    ∧ (hosts.headD (alloc 9 9)).ipv6Gw = "2001:1:A::ff"
    ∧ first64 ((hosts.headD (alloc 9 9)).ipv6) = [0x2001, 0x1, 0x1, 0x0]
    ∧ first64 ((hosts.headD (alloc 9 9)).ipv6Gw) = [0x2001, 0x1, 0xa, 0x0]
    ∧ first64 ((hosts.headD (alloc 9 9)).ipv6) ≠ first64 ((hosts.headD (alloc 9 9)).ipv6Gw) := by
  decide

/-- C5 (amended): for every generated host the gateway shares the first
32 bits (the pod-specific 200p:1 part) with the host's own address, but
never the first 64 bits: the third 16-bit group differs (the host address
uses 1 there, the gateway uses the letter value 0xa..0xd). -/
theorem C5_gw_shares_32_not_64 :
    (hosts.all fun h => first32 h.ipv6 == first32 h.ipv6Gw
        && !(first64 h.ipv6 == first64 h.ipv6Gw)) = true := by decide

/-- C6: configuration issues its steps in exactly the order flush IPv4,
flush IPv6, add the IPv6 address, add the default route via the gateway,
then disable rx, tx and sg offload; the route step appears exactly when a
(nonempty) gateway is present, and with no gateway the sequence goes
straight from address assignment to offload disabling. -/
theorem C6_config_order (a g : String) (hg : g ≠ "") :
    IPv6HostConfig a (some g) =
      [ConfigStep.flushV4, ConfigStep.flushV6, ConfigStep.addAddr a, ConfigStep.addRoute g,
       ConfigStep.offloadOff "rx", ConfigStep.offloadOff "tx", ConfigStep.offloadOff "sg"]
    ∧ IPv6HostConfig a none =
      [ConfigStep.flushV4, ConfigStep.flushV6, ConfigStep.addAddr a,
       ConfigStep.offloadOff "rx", ConfigStep.offloadOff "tx", ConfigStep.offloadOff "sg"]
    ∧ IPv6HostConfig a (some "") =
      [ConfigStep.flushV4, ConfigStep.flushV6, ConfigStep.addAddr a,
       ConfigStep.offloadOff "rx", ConfigStep.offloadOff "tx", ConfigStep.offloadOff "sg"] := by
  refine ⟨?_, rfl, rfl⟩
  simp [IPv6HostConfig, hg]

/-- C6 (witness): the ordering theorem instantiated at host h1a's address
and gateway. -/
theorem C6_config_order_witness :
    IPv6HostConfig "2001:1:1::a/64" (some "2001:1:A::ff") =
      [ConfigStep.flushV4, ConfigStep.flushV6, ConfigStep.addAddr "2001:1:1::a/64",
       ConfigStep.addRoute "2001:1:A::ff", ConfigStep.offloadOff "rx",
       ConfigStep.offloadOff "tx", ConfigStep.offloadOff "sg"] :=
  (C6_config_order "2001:1:1::a/64" "2001:1:A::ff" (by decide)).1

/-- C7: requesting generation with a non-positive or odd size fails with
InvalidSize and yields no topology at all (modelled from the spec: the
source hardcodes k=4 and has no size parameter). -/
theorem C7_invalid_size (k : Int) (h : k ≤ 0 ∨ k % 2 ≠ 0) :
    GenerateFatTree k = Except.error GenError.InvalidSize
    ∧ ∀ t : SpecTopo, GenerateFatTree k ≠ Except.ok t := by
  have he : GenerateFatTree k = Except.error GenError.InvalidSize := by
    unfold GenerateFatTree
    exact if_pos h
  exact ⟨he, fun t hc => by rw [he] at hc; exact Except.noConfusion hc⟩

/-- C7 (witness): the InvalidSize theorem instantiated at the odd size 3. -/
theorem C7_invalid_size_witness :
    GenerateFatTree 3 = Except.error GenError.InvalidSize
    ∧ ∀ t : SpecTopo, GenerateFatTree 3 ≠ Except.ok t :=
  C7_invalid_size 3 (Or.inr (by decide))

/-- C8: all twenty switches — core, aggregation and edge alike — are
created with cpuport equal to CPU_PORT, which is 255. -/
theorem C8_cpu_port :
    CPU_PORT = 255
    ∧ (mkSwitches.all fun s => s.cpuport == CPU_PORT) = true
    ∧ mkSwitches.length = 20 := by decide

/-- C9: for every generated host, the installed updateIP closure returns
the host's configured IPv6 address with everything from the first slash
on removed (concretely, h1a's updateIP yields 2001:1:1::a). -/
theorem C9_updateIP_strips_len :
    (hosts.all fun h => updateIP h.ipv6 == (beforeSlash h.ipv6).asString) = true
    ∧ updateIP "2001:1:1::a/64" = "2001:1:1::a" := by decide

/-- C10: the sixteen generated hosts are exactly alloc p i for p in 1..4
and i in 1..4, in that order — so each host's name h{p}{l}, MAC
00:00:00:00:00:{p}{L}, address 200{p}:1:1::{l}/64 and gateway
200{p}:1:{L}::ff all encode the same (pod, letter) pair. -/
theorem C10_host_encoding :
    hosts = (List.range' 1 4).flatMap fun p => (List.range' 1 4).map (alloc p) := by decide

end FatTree
